import Mathlib

/-!
Verification of the page-selection and text-extraction pipeline implemented in
`src/skills/pdf-extraction/scripts/extract_text.py`, shallowly embedded in Lean.

The embedding follows the Python source line by line:
* `parse_page_range` — the selector resolver;
* `extract_text` — the extraction aggregator (the string-selector path; the
  result's `success` flag and `file` path bookkeeping are represented by the
  `Except` wrapper and are not part of any claim).
Python behaviours the script relies on are embedded explicitly: `int()`
parsing (whitespace stripping, optional sign), `str.split`, `str.lower`,
`in` on strings, `range`, `sorted(set(...))`, `'\n'.join`, and truthiness of
`None`/`""`/`{}`.  String operations are written over `List Char` so that
every definition evaluates by kernel reduction.
-/

deriving instance DecidableEq for Except

namespace PdfExtract

/-- Python `str.isspace` for the ASCII whitespace characters `int()` strips. -/
def isPySpace (c : Char) : Bool :=
  c.toNat = 32 || c.toNat = 9 || c.toNat = 10 || c.toNat = 13 ||
    c.toNat = 11 || c.toNat = 12

/-- Python `s.strip()` on a character list: drop whitespace from both ends. -/
def stripChars (cs : List Char) : List Char :=
  ((cs.dropWhile isPySpace).reverse.dropWhile isPySpace).reverse

/-- Python `s.split(sep)` for a one-character separator: splitting the empty
string yields `[""]`, and consecutive separators yield empty pieces. -/
def splitOnChar (sep : Char) : List Char → List (List Char)
  | [] => [[]]
  | c :: rest =>
    match splitOnChar sep rest with
    | [] => [[]]
    | g :: gs => if c = sep then [] :: g :: gs else (c :: g) :: gs

/-- `s.split(sep)` lifted back to `String`. -/
def pySplit (sep : Char) (s : String) : List String :=
  (splitOnChar sep s.toList).map String.mk

/-- Decimal-digit parsing used by `pyInt?`: the value of a nonempty all-digit
character list, `none` otherwise. -/
def digitsToNat? (cs : List Char) : Option Nat :=
  if cs = [] then none
  else if cs.all Char.isDigit then
    some (cs.foldl (fun n c => n * 10 + (c.toNat - 48)) 0)
  else none

/-- Embedding of Python `int(s)` for base 10: surrounding whitespace is
stripped, one optional leading sign is accepted, the rest must be decimal
digits. `none` where Python raises `ValueError`. -/
def pyInt? (s : String) : Option Int :=
  match stripChars s.toList with
  | '-' :: rest => (digitsToNat? rest).map (fun n => -(n : Int))
  | '+' :: rest => (digitsToNat? rest).map (fun n => (n : Int))
  | cs => (digitsToNat? cs).map (fun n => (n : Int))

/-- The message of the `ValueError` Python `int()` raises on an unparsable
literal (the original quotes the offending text via `repr`; we carry the text
itself). -/
def intError (s : String) : String :=
  "invalid literal for int() with base 10: " ++ s

/-- The message of the `ValueError` raised by `start, end = part.split('-')`
when the split yields more than two pieces.  Note it does not mention the
offending token. -/
def unpackError : String :=
  "too many values to unpack (expected 2)"

/-- Python `range(a, b)` over integers, as a list (empty when `b <= a`). -/
def intRange (a b : Int) : List Int :=
  (List.range (b - a).toNat).map (fun i => a + (i : Int))

/-- Insert `x` into an ascending duplicate-free list, keeping it ascending and
duplicate-free. -/
def insertSorted (x : Int) : List Int → List Int
  | [] => [x]
  | y :: ys =>
    if x < y then x :: y :: ys
    else if x = y then y :: ys
    else y :: insertSorted x ys

/-- Python `sorted(set(l))` for a list of ints: the distinct elements of `l`
in ascending order (characterised by `sortedSet_sorted_lt`, `sortedSet_nodup`
and `mem_sortedSet` below, which pin down that list uniquely). -/
def sortedSet (l : List Int) : List Int :=
  l.foldr insertSorted []

/-- The lower-cased code point of a character, as Python `str.lower` computes
it on ASCII. -/
def lowerNat (c : Char) : Nat :=
  if 65 ≤ c.toNat ∧ c.toNat ≤ 90 then c.toNat + 32 else c.toNat

/-- Python `range_str.lower() == 'all'`. -/
def isAllSelector (s : String) : Bool :=
  s.toList.map lowerNat = "all".toList.map Char.toNat

/-- One iteration of the `for part in range_str.split(','):` loop body of
`parse_page_range`: a token containing a dash is split on the dash and must
unpack into exactly two `int()`-parsable pieces, contributing the 0-indexed
half-open range `[start-1, end)`; any other token must be a single
`int()`-parsable page number, contributing `[n-1]`.  The error string is the
Python exception message; evaluation order (unpack, then `int(start)`, then
`int(end)`) matches the source. -/
def parseToken (part : String) : Except String (List Int) :=
  if part.toList.contains '-' then
    match pySplit '-' part with
    | [s, e] =>
      match pyInt? s with
      | none => .error (intError s)
      | some a =>
        match pyInt? e with
        | none => .error (intError e)
        | some b => .ok (intRange (a - 1) b)
    | _ => .error unpackError
  else
    match pyInt? part with
    | none => .error (intError part)
    | some a => .ok [a - 1]

/-- The whole token loop of `parse_page_range`: tokens processed left to
right, contributions appended, the first failing token aborts. -/
def collectTokens : List String → Except String (List Int)
  | [] => .ok []
  | p :: ps =>
    match parseToken p with
    | .error e => .error e
    | .ok xs =>
      match collectTokens ps with
      | .error e => .error e
      | .ok rest => .ok (xs ++ rest)

/-- Embedding of `parse_page_range(range_str, total_pages)`: `'all'`
(case-insensitively) yields `0 .. total_pages-1`; otherwise the selector is
split on commas, each token parsed by `parseToken`, and the accumulated pages
returned as `sorted(set(pages))`.  No bounds check happens here; tokens are
not trimmed and empty tokens are not skipped. -/
def parse_page_range (range_str : String) (total_pages : Nat) :
    Except String (List Int) :=
  if isAllSelector range_str then
    .ok ((List.range total_pages).map Int.ofNat)
  else
    match collectTokens (pySplit ',' range_str) with
    | .error e => .error e
    | .ok pages => .ok (sortedSet pages)

/-- A Python value appearing in a PDF metadata mapping, with its `str()`
coercion. -/
inductive PyVal where
  | str (s : String)
  | int (n : Int)
deriving DecidableEq, Repr

def PyVal.toStr : PyVal → String
  | .str s => s
  | .int n => toString n

/-- The opened document handle: `pages` holds each page's
`page.extract_text()` result (`none` for Python `None`), `metadata` the
document's metadata mapping (`[]` for a falsy `pdf.metadata`). -/
structure PDF where
  pages : List (Option String)
  metadata : List (String × PyVal)
deriving DecidableEq

/-- One entry of the result's `pages` list. -/
structure PageRecord where
  page : Int
  text : String
  char_count : Nat
deriving DecidableEq, Repr

/-- The success dictionary built by `extract_text` (its constant
`success: True` field and the `file` path are carried by the `Except.ok`
wrapper). -/
structure ExtractionResult where
  total_pages : Nat
  extracted_pages : Nat
  total_chars : Nat
  pages : List PageRecord
  full_text : String
  metadata : Option (List (String × String))
deriving DecidableEq

/-- Python `sep.join(ts)`. -/
def pyJoin (sep : String) : List String → String
  | [] => ""
  | [t] => t
  | t :: ts => t ++ sep ++ pyJoin sep ts

/-- The aggregator's bounds guard `0 <= page_num < total_pages`. -/
def boundsOk (total_pages : Nat) (i : Int) : Bool :=
  decide (0 ≤ i) && decide (i < (total_pages : Int))

/-- The record built for one kept page index: 1-indexed display number,
`text or ''`, and `len(text) if text else 0`. -/
def pageRecordOf (pdf : PDF) (i : Int) : PageRecord :=
  let text := pdf.pages.getD i.toNat none
  { page := i + 1
  , text := text.getD ""
  , char_count := match text with | some t => t.length | none => 0 }

/-- The aggregation loop of `extract_text` applied to an already-resolved page
list: keep only in-bounds indices (`if 0 <= page_num < total_pages:`), build
one `PageRecord` per kept index in order, join the texts with `'\n'`, and
attach the stringified metadata exactly when `include_metadata and
pdf.metadata` is truthy. -/
def aggregate (pdf : PDF) (page_numbers : List Int) (include_metadata : Bool) :
    ExtractionResult :=
  let total_pages := pdf.pages.length
  let kept := page_numbers.filter (boundsOk total_pages)
  let extracted := kept.map (pageRecordOf pdf)
  let full_text := pyJoin "\n" (extracted.map PageRecord.text)
  { total_pages := total_pages
  , extracted_pages := extracted.length
  , total_chars := full_text.length
  , pages := extracted
  , full_text := full_text
  , metadata :=
      if include_metadata && !pdf.metadata.isEmpty then
        some (pdf.metadata.map (fun kv => (kv.1, kv.2.toStr)))
      else
        none }

/-- Embedding of `extract_text(file_path, pages, include_metadata)` for a
string page selector on an opened document: resolve the selector against the
page count, then aggregate; a resolver exception becomes the `error` branch
of the result (`{'success': False, 'error': str(e)}` in the source). -/
def extract_text (pdf : PDF) (pages : String) (include_metadata : Bool) :
    Except String ExtractionResult :=
  match parse_page_range pages pdf.pages.length with
  | .error e => .error e
  | .ok page_numbers => .ok (aggregate pdf page_numbers include_metadata)

/-! ### Order and membership structure of the resolver's output -/

theorem mem_insertSorted (a x : Int) (l : List Int) :
    a ∈ insertSorted x l ↔ a = x ∨ a ∈ l := by
  induction l with
  | nil => simp [insertSorted]
  | cons y ys ih =>
    simp only [insertSorted]
    split
    · simp [List.mem_cons]
    · split
      · rename_i hxy
        subst hxy
        simp [List.mem_cons]
      · simp only [List.mem_cons, ih]
        tauto

theorem sorted_insertSorted (x : Int) {l : List Int}
    (h : l.Sorted (· < ·)) : (insertSorted x l).Sorted (· < ·) := by
  induction l with
  | nil => simp [insertSorted]
  | cons y ys ih =>
    rw [List.sorted_cons] at h
    obtain ⟨hy, hys⟩ := h
    simp only [insertSorted]
    split
    · rename_i hxy
      rw [List.sorted_cons]
      refine ⟨?_, by rw [List.sorted_cons]; exact ⟨hy, hys⟩⟩
      intro b hb
      rcases List.mem_cons.mp hb with rfl | hb
      · exact hxy
      · exact lt_trans hxy (hy b hb)
    · split
      · rw [List.sorted_cons]; exact ⟨hy, hys⟩
      · rename_i hlt heq
        have hyx : y < x := lt_of_le_of_ne (not_lt.mp hlt) (fun h => heq h.symm)
        rw [List.sorted_cons]
        refine ⟨?_, ih hys⟩
        intro b hb
        rcases (mem_insertSorted b x ys).mp hb with rfl | hb
        · exact hyx
        · exact hy b hb

theorem sortedSet_sorted_lt (l : List Int) : (sortedSet l).Sorted (· < ·) := by
  induction l with
  | nil => simp [sortedSet]
  | cons x xs ih =>
    simp only [sortedSet, List.foldr_cons] at ih ⊢
    exact sorted_insertSorted x ih

theorem sortedSet_nodup (l : List Int) : (sortedSet l).Nodup :=
  (sortedSet_sorted_lt l).nodup

theorem mem_sortedSet {a : Int} {l : List Int} : a ∈ sortedSet l ↔ a ∈ l := by
  induction l with
  | nil => simp [sortedSet]
  | cons x xs ih =>
    simp only [sortedSet, List.foldr_cons] at ih ⊢
    rw [mem_insertSorted, ih, List.mem_cons]

theorem rangeInt_sorted_lt (n : Nat) :
    ((List.range n).map Int.ofNat).Sorted (· < ·) := by
  refine List.Pairwise.map _ ?_ (List.sorted_lt_range n)
  intro a b h
  exact Int.ofNat_lt.mpr h

/-- Any `ok` result of the resolver is either the full 0-based page range (the
all-keyword branch) or `sortedSet` of the accumulated token contributions. -/
theorem parse_page_range_ok_cases {s : String} {n : Nat} {l : List Int}
    (h : parse_page_range s n = .ok l) :
    l = (List.range n).map Int.ofNat ∨
      ∃ pages, collectTokens (pySplit ',' s) = .ok pages ∧ l = sortedSet pages := by
  unfold parse_page_range at h
  split at h
  · left
    injection h with h
    exact h.symm
  · right
    split at h
    · cases h
    · rename_i pages hpages
      injection h with h
      exact ⟨pages, hpages, h.symm⟩

/-- The resolver's output is always strictly ascending and duplicate-free. -/
theorem parse_page_range_sorted_nodup {s : String} {n : Nat} {l : List Int}
    (h : parse_page_range s n = .ok l) :
    l.Sorted (· < ·) ∧ l.Nodup := by
  rcases parse_page_range_ok_cases h with rfl | ⟨pages, -, rfl⟩
  · exact ⟨rangeInt_sorted_lt n, (rangeInt_sorted_lt n).nodup⟩
  · exact ⟨sortedSet_sorted_lt pages, sortedSet_nodup pages⟩

example : pyInt? "3" = some 3 := by decide
example : pyInt? " 12 " = some 12 := by decide
example : pyInt? "" = none := by decide
example : pyInt? "x" = none := by decide
example : pyInt? "-4" = some (-4) := by decide
example : parse_page_range "all" 3 = .ok [0, 1, 2] := by decide
example : parse_page_range "ALL" 0 = .ok [] := by decide
example : parse_page_range "5,1-3,2" 10 = .ok [0, 1, 2, 4] := by decide
example : parse_page_range "3-1" 10 = .ok [] := by decide
example : parse_page_range "x" 5 = .error (intError "x") := by decide
example : parse_page_range "1-100" 5 =
    .ok ((List.range 100).map Int.ofNat) := by decide
example : parse_page_range "1,,3" 5 = .error (intError "") := by decide
example : parse_page_range "1-2-3" 5 = .error unpackError := by decide
example : parse_page_range "0" 5 = .ok [-1] := by decide

/-- Inversion of a successful `extract_text` call: the selector resolved, and
the result is the aggregation of the resolved list. -/
theorem extract_text_ok {pdf : PDF} {sel : String} {im : Bool}
    {r : ExtractionResult} (h : extract_text pdf sel im = .ok r) :
    ∃ l, parse_page_range sel pdf.pages.length = .ok l ∧
      r = aggregate pdf l im := by
  unfold extract_text at h
  split at h
  · cases h
  · rename_i l hl
    injection h with h
    exact ⟨l, hl, h.symm⟩

/-- For a selector other than the all-keyword, the resolver ignores
`total_pages` entirely. -/
theorem parse_page_range_not_all {s : String} (h : isAllSelector s = false)
    (n : Nat) :
    parse_page_range s n =
      match collectTokens (pySplit ',' s) with
      | .error e => .error e
      | .ok pages => .ok (sortedSet pages) := by
  unfold parse_page_range
  rw [h]
  simp

/-- Length of a Python join: the lengths of the pieces plus one separator
between consecutive pieces. -/
theorem pyJoin_length (sep : String) : ∀ ts : List String,
    (pyJoin sep ts).length =
      (ts.map String.length).sum + sep.length * (ts.length - 1)
  | [] => by simp [pyJoin]
  | [t] => by simp [pyJoin]
  | t :: t2 :: ts => by
    have ih := pyJoin_length sep (t2 :: ts)
    simp only [pyJoin, String.length_append, List.map_cons, List.sum_cons,
      List.length_cons, Nat.add_sub_cancel] at ih ⊢
    rw [ih]
    ring

/-- Every record the aggregator builds counts exactly the characters of its
own text. -/
theorem pageRecordOf_char_count (pdf : PDF) (i : Int) :
    (pageRecordOf pdf i).char_count = (pageRecordOf pdf i).text.length := by
  simp only [pageRecordOf, List.getD]
  rcases hx : pdf.pages[i.toNat]? with - | ot
  · simp [hx]
  · rcases ot with - | t <;> simp [hx]

/-! ### Claims -/

/-- C1, counterexample: the resolver itself does not drop out-of-range
references — `parse_page_range("1-100", 5)` is the full hundred-element list
`[0, …, 99]`, not `[0, 1, 2, 3, 4]`. -/
theorem C1_counterexample :
    parse_page_range "1-100" 5 = .ok ((List.range 100).map Int.ofNat) ∧
      parse_page_range "1-100" 5 ≠ .ok [0, 1, 2, 3, 4] := by
  constructor
  · decide
  · decide

/-- C1 (amended): for every selector accepted by the grammar the resolver's
output is strictly ascending with no duplicates, but out-of-range references
are NOT dropped by the resolver; they are dropped by the aggregator's bounds
guard, so the page indices actually extracted are always in
`[0, total_pages)` — and for `"1-100"` on a 5-page document the extracted
indices are `[0,1,2,3,4]`. -/
theorem C1_resolver_sorted_aggregator_bounded
    (sel : String) (n : Nat) (l : List Int)
    (h : parse_page_range sel n = .ok l) :
    l.Sorted (· < ·) ∧ l.Nodup ∧
      (∀ v ∈ l.filter (boundsOk n), 0 ≤ v ∧ v < (n : Int)) ∧
      (parse_page_range "1-100" 5).map (fun l0 => l0.filter (boundsOk 5)) =
        .ok [0, 1, 2, 3, 4] := by
  obtain ⟨hs, hd⟩ := parse_page_range_sorted_nodup h
  refine ⟨hs, hd, ?_, by decide⟩
  intro v hv
  have := List.of_mem_filter hv
  simpa [boundsOk] using this

theorem C1_resolver_sorted_aggregator_bounded_witness :
    ((List.range 100).map Int.ofNat).Sorted (· < ·) ∧
      ((List.range 100).map Int.ofNat).Nodup ∧
      (∀ v ∈ ((List.range 100).map Int.ofNat).filter (boundsOk 5),
        0 ≤ v ∧ v < (5 : Int)) ∧
      (parse_page_range "1-100" 5).map (fun l0 => l0.filter (boundsOk 5)) =
        .ok [0, 1, 2, 3, 4] :=
  C1_resolver_sorted_aggregator_bounded "1-100" 5
    ((List.range 100).map Int.ofNat) (by decide)

/-- C4: the resolver's output order is strictly ascending regardless of token
order and overlaps, and `parse_page_range("5,1-3,2", 10) = [0,1,2,4]`. -/
theorem C4_ascending_merge_overlaps
    (sel : String) (n : Nat) (l : List Int)
    (h : parse_page_range sel n = .ok l) :
    l.Sorted (· < ·) ∧ parse_page_range "5,1-3,2" 10 = .ok [0, 1, 2, 4] :=
  ⟨(parse_page_range_sorted_nodup h).1, by decide⟩

theorem C4_ascending_merge_overlaps_witness :
    ([0, 1, 2, 4] : List Int).Sorted (· < ·) ∧
      parse_page_range "5,1-3,2" 10 = .ok [0, 1, 2, 4] :=
  C4_ascending_merge_overlaps "5,1-3,2" 10 [0, 1, 2, 4] (by decide)

/-- C7: a selector that case-insensitively equals the all-keyword resolves to
exactly `[0, …, N-1]`, and to the empty sequence when `N = 0`. -/
theorem C7_all_keyword (s : String) (n : Nat) (h : isAllSelector s = true) :
    parse_page_range s n = .ok ((List.range n).map Int.ofNat) ∧
      parse_page_range s 0 = .ok [] := by
  constructor
  · unfold parse_page_range
    rw [h]
    simp
  · unfold parse_page_range
    rw [h]
    simp

theorem C7_all_keyword_witness :
    parse_page_range "AlL" 4 = .ok ((List.range 4).map Int.ofNat) ∧
      parse_page_range "AlL" 0 = .ok [] :=
  C7_all_keyword "AlL" 4 (by decide)

/-- C8: a reversed dash token (parsed endpoints `e < s`) contributes no page
indices, and `parse_page_range("3-1", 10) = []`. -/
theorem C8_reversed_range_empty (tok a b : String) (s e : Int)
    (hdash : tok.toList.contains '-' = true)
    (hsplit : pySplit '-' tok = [a, b])
    (hs : pyInt? a = some s) (he : pyInt? b = some e) (hrev : e < s) :
    parseToken tok = .ok [] ∧ parse_page_range "3-1" 10 = .ok [] := by
  refine ⟨?_, by decide⟩
  unfold parseToken
  rw [hdash, hsplit]
  simp only [hs, he, if_true]
  have hz : (e - (s - 1)).toNat = 0 := by omega
  simp [intRange, hz]

theorem C8_reversed_range_empty_witness :
    parseToken "3-1" = .ok [] ∧ parse_page_range "3-1" 10 = .ok [] :=
  C8_reversed_range_empty "3-1" "3" "1" 3 1 (by decide) (by decide)
    (by decide) (by decide) (by decide)

/-- C10: the aggregator's `pages` list is built from exactly the resolved
indices passing the bounds guard, and every index passing the guard satisfies
`0 ≤ i` and `i.toNat < total_pages` — so the page container is never indexed
out of bounds and a negative index (such as the `-1` that the token `"0"`
resolves to) never reaches the container. -/
theorem C10_bounds_guard (sel : String) (n : Nat) (l : List Int)
    (_h : parse_page_range sel n = .ok l) :
    (∀ i ∈ l.filter (boundsOk n), 0 ≤ i ∧ i.toNat < n) ∧
      (∀ (pdf : PDF) (im : Bool),
        (aggregate pdf l im).pages =
          (l.filter (boundsOk pdf.pages.length)).map (pageRecordOf pdf)) ∧
      parse_page_range "0" 5 = .ok [-1] ∧
      List.filter (boundsOk 5) [-1] = [] := by
  refine ⟨?_, ?_, by decide, by decide⟩
  · intro i hi
    have hb := List.of_mem_filter hi
    simp only [boundsOk, Bool.and_eq_true, decide_eq_true_eq] at hb
    omega
  · intro pdf im
    simp [aggregate]

theorem C10_bounds_guard_witness :
    (∀ i ∈ ([-1] : List Int).filter (boundsOk 5), 0 ≤ i ∧ i.toNat < 5) ∧
      (∀ (pdf : PDF) (im : Bool),
        (aggregate pdf [-1] im).pages =
          (([-1] : List Int).filter (boundsOk pdf.pages.length)).map
            (pageRecordOf pdf)) ∧
      parse_page_range "0" 5 = .ok [-1] ∧
      List.filter (boundsOk 5) [-1] = [] :=
  C10_bounds_guard "0" 5 [-1] (by decide)

/-- A concrete two-page document with one character of text per page. -/
def pdfC2 : PDF := ⟨[some "a", some "a"], []⟩

/-- C2, counterexample: on a two-page document with texts `"a"`, `"a"`, the
result has `total_chars = 3` (the joining newline is counted) while the sum of
the `char_count` fields is `2`, so the three quantities of the claim are not
all equal. -/
theorem C2_counterexample :
    (extract_text pdfC2 "all" false).map
        (fun r => (r.total_chars, (r.pages.map PageRecord.char_count).sum)) =
      .ok (3, 2) ∧ (3 : Nat) ≠ 2 := by
  constructor
  · decide
  · decide

/-- C2 (amended): `total_chars` equals the length of `full_text`, which
equals the sum of the `char_count` fields plus one joining newline per
adjacent pair of records (`pages.length - 1` in truncated subtraction) — the
two quantities of the claim coincide only for at most one extracted page. -/
theorem C2_total_chars_full_text
    (pdf : PDF) (sel : String) (im : Bool) (r : ExtractionResult)
    (h : extract_text pdf sel im = .ok r) :
    r.total_chars = r.full_text.length ∧
      r.full_text.length =
        (r.pages.map PageRecord.char_count).sum + (r.pages.length - 1) := by
  obtain ⟨l, -, rfl⟩ := extract_text_ok h
  refine ⟨by simp [aggregate], ?_⟩
  simp only [aggregate]
  rw [pyJoin_length]
  have h1 : ("\n" : String).length = 1 := rfl
  rw [h1, one_mul]
  simp only [List.map_map, List.length_map]
  congr 1
  congr 1
  apply List.map_congr_left
  intro i _
  simp only [Function.comp]
  exact (pageRecordOf_char_count pdf i).symm

theorem C2_total_chars_full_text_witness :
    (aggregate pdfC2 [0, 1] false).total_chars =
        (aggregate pdfC2 [0, 1] false).full_text.length ∧
      (aggregate pdfC2 [0, 1] false).full_text.length =
        ((aggregate pdfC2 [0, 1] false).pages.map PageRecord.char_count).sum +
          ((aggregate pdfC2 [0, 1] false).pages.length - 1) :=
  C2_total_chars_full_text pdfC2 "all" false
    (aggregate pdfC2 [0, 1] false) (by decide)

/-- A concrete two-page document with distinct page texts. -/
def pdfC3 : PDF := ⟨[some "x", some "y"], []⟩

/-- C3: a successful result's `full_text` is the newline-join of its
PageRecords' texts (built in ascending resolved order), and two selectors
resolving to the same index set produce identical extraction results. -/
theorem C3_full_text_selector_set_invariant
    (pdf : PDF) (s1 s2 : String) (im : Bool) (l1 l2 : List Int)
    (h1 : parse_page_range s1 pdf.pages.length = .ok l1)
    (h2 : parse_page_range s2 pdf.pages.length = .ok l2)
    (hset : ∀ v : Int, v ∈ l1 ↔ v ∈ l2) :
    (∀ r, extract_text pdf s1 im = .ok r →
        r.full_text = pyJoin "\n" (r.pages.map PageRecord.text)) ∧
      extract_text pdf s1 im = extract_text pdf s2 im := by
  have hnd1 := parse_page_range_sorted_nodup h1
  have hnd2 := parse_page_range_sorted_nodup h2
  have hl : l1 = l2 :=
    List.eq_of_perm_of_sorted
      ((List.perm_ext_iff_of_nodup hnd1.2 hnd2.2).mpr hset)
      hnd1.1.le_of_lt hnd2.1.le_of_lt
  constructor
  · intro r hr
    obtain ⟨l, -, rfl⟩ := extract_text_ok hr
    simp [aggregate]
  · unfold extract_text
    rw [h1, h2, hl]

theorem C3_full_text_selector_set_invariant_witness :
    (∀ r, extract_text pdfC3 "2,1" true = .ok r →
        r.full_text = pyJoin "\n" (r.pages.map PageRecord.text)) ∧
      extract_text pdfC3 "2,1" true = extract_text pdfC3 "1-2" true :=
  C3_full_text_selector_set_invariant pdfC3 "2,1" "1-2" true [0, 1] [0, 1]
    (by decide) (by decide) (fun _ => Iff.rfl)

/-- C5, counterexample: a token with more than one dash does fail, but the
failure message (Python's unpack `ValueError`) does not carry the offending
token, contrary to the claim. -/
theorem C5_counterexample :
    parse_page_range "1-2-3" 5 = .error unpackError ∧
      ¬ List.IsInfix "1-2-3".toList unpackError.toList := by
  constructor
  · decide
  · decide

/-- C5 (amended): a selector with an unparsable token makes the resolver fail
with the `ValueError` message, and the whole call surfaces that failure as a
structured error — never as a partial success; the message carries the
offending token for a non-numeric bare token (e.g. `"x"`), but not for a
token with more than one dash. -/
theorem C5_invalid_token_structured_failure
    (pdf : PDF) (sel : String) (im : Bool) (e : String)
    (h : parse_page_range sel pdf.pages.length = .error e) :
    extract_text pdf sel im = .error e ∧
      (∀ r, extract_text pdf sel im ≠ .ok r) ∧
      parse_page_range "x" 5 = .error (intError "x") ∧
      List.IsInfix "x".toList (intError "x").toList := by
  have hx : extract_text pdf sel im = .error e := by
    unfold extract_text
    rw [h]
  refine ⟨hx, ?_, by decide, by decide⟩
  intro r hr
  rw [hx] at hr
  simp at hr

/-- A concrete five-page document without extractable text. -/
def pdfC5 : PDF := ⟨[none, none, none, none, none], []⟩

theorem C5_invalid_token_structured_failure_witness :
    extract_text pdfC5 "x" true = .error (intError "x") ∧
      (∀ r, extract_text pdfC5 "x" true ≠ .ok r) ∧
      parse_page_range "x" 5 = .error (intError "x") ∧
      List.IsInfix "x".toList (intError "x").toList :=
  C5_invalid_token_structured_failure pdfC5 "x" true (intError "x")
    (by decide)

/-- C6, counterexample: the resolver does not skip empty tokens — the empty
token of `"1,,3"` is a failure (`int('')` raises), it does not resolve like
`"1,3"`. -/
theorem C6_counterexample :
    parse_page_range "1,,3" 5 = .error (intError "") ∧
      parse_page_range "1,3" 5 = .ok [0, 2] := by
  constructor
  · decide
  · decide

/-- C6 (amended): tokens are not trimmed and empty tokens are not skipped:
an empty token (`"1,,3"`, or a trailing comma) fails for every `total_pages`;
whitespace around numeric tokens is nonetheless harmless, because `int()`
itself strips it, so a whitespace-padded selector resolves exactly like the
stripped one. -/
theorem C6_empty_tokens_fail_whitespace_tolerated (n : Nat) :
    parse_page_range "1,,3" n = .error (intError "") ∧
      parse_page_range "1,3," n = .error (intError "") ∧
      parse_page_range " 1 , 3 - 4 " n = parse_page_range "1,3-4" n := by
  refine ⟨?_, ?_, ?_⟩
  · rw [parse_page_range_not_all (by decide) n]
    decide
  · rw [parse_page_range_not_all (by decide) n]
    decide
  · rw [parse_page_range_not_all (by decide) n,
      parse_page_range_not_all (by decide) n]
    decide

theorem C6_empty_tokens_fail_whitespace_tolerated_witness :
    parse_page_range "1,,3" 7 = .error (intError "") ∧
      parse_page_range "1,3," 7 = .error (intError "") ∧
      parse_page_range " 1 , 3 - 4 " 7 = parse_page_range "1,3-4" 7 :=
  C6_empty_tokens_fail_whitespace_tolerated 7

/-- A concrete one-page document exposing one metadata entry. -/
def pdfC9 : PDF := ⟨[some "t"], [("Author", PyVal.str "Ann")]⟩

/-- C9: the result carries a metadata field iff `include_metadata` is true
and the document exposes at least one metadata entry; when present it is the
document's mapping with values coerced to string, otherwise the field is
absent (`none`), not an empty mapping. -/
theorem C9_metadata_presence
    (pdf : PDF) (sel : String) (im : Bool) (r : ExtractionResult)
    (h : extract_text pdf sel im = .ok r) :
    (r.metadata.isSome ↔ (im = true ∧ pdf.metadata ≠ [])) ∧
      (r.metadata.isSome →
        r.metadata =
          some (pdf.metadata.map (fun kv => (kv.1, kv.2.toStr)))) := by
  obtain ⟨l, -, rfl⟩ := extract_text_ok h
  cases im with
  | false => simp [aggregate]
  | true =>
    cases hm : pdf.metadata with
    | nil => simp [aggregate, hm]
    | cons kv kvs => simp [aggregate, hm]

theorem C9_metadata_presence_witness :
    ((aggregate pdfC9 [0] true).metadata.isSome ↔
        (true = true ∧ pdfC9.metadata ≠ [])) ∧
      ((aggregate pdfC9 [0] true).metadata.isSome →
        (aggregate pdfC9 [0] true).metadata =
          some (pdfC9.metadata.map (fun kv => (kv.1, kv.2.toStr)))) :=
  C9_metadata_presence pdfC9 "all" true (aggregate pdfC9 [0] true)
    (by decide)

end PdfExtract
